import Mathlib

/-!
Verification of the dynamic-API resolution and routing layer
(`apps/core/utils.py`, `apps/core/views.py`, `apps/core/serializers.py`)
against its natural-language specification.

The Python code is shallowly embedded: each function becomes a pure Lean
function over an explicit environment `Env` describing the configured
databases, their reachability, the tables present in each database, the
registered models, and the stored record ids.  Every storage access the
Python code performs (connectivity probes, table-existence probes, record
reads and writes) is recorded as an `Event` in an explicit trace, so that
ordering claims ("no storage access before rejection") become statements
about traces.  Fallible code returns `Except Exc`, where `Exc` records the
exception class (DRF `NotFound`, Django `ValidationError`, DRF
`ValidationError`), a structured tag identifying the raise site, the
message text, and field-level detail.
-/

set_option autoImplicit false

namespace DynamicApi

/-- A value carried in a request payload or a stored record:
strings, integers, primary-key identifiers, or null. -/
inductive Val where
  | s (x : String)
  | i (x : Int)
  | id (x : Nat)
  | null
deriving DecidableEq, Repr

/-- One declared field of a model: its name and, when it is a
foreign-key field, the `db_table` of the target model
(mirrors Django field metadata used by the serializer). -/
structure FieldM where
  name : String
  fkTarget : Option String
deriving DecidableEq, Repr

/-- The model metadata the Python code consults:
`_meta.model_name`, `_meta.app_label`, `_meta.db_table`, and the fields. -/
structure ModelMeta where
  model_name : String
  app_label : String
  db_table : String
  fieldsOf : List FieldM
deriving DecidableEq, Repr

/-- The process-wide environment: `connections.databases` keys, the set of
databases a connectivity probe succeeds against, the `(database, table)`
pairs that exist, `apps.get_models()` in registration order, and for each
`(database, table)` the list of stored record ids. -/
structure Env where
  databases : List String
  reachable : List String
  tables : List (String × String)
  all_models : List ModelMeta
  storage : List (String × String × List Nat)
deriving DecidableEq, Repr

/-- Stored record ids of a table in a database. -/
def Env.idsIn (env : Env) (db tbl : String) : List Nat :=
  match env.storage.find? (fun t => t.1 == db && t.2.1 == tbl) with
  | some t => t.2.2
  | none => []

/-- A storage access performed by the code, in order:
`probe db` is the connectivity check `SELECT 1` on a cursor of `db`;
`tableProbe db t` is the zero-row query `SELECT 1 FROM t WHERE 1=0`;
`recordRead`/`recordWrite` are record-level accesses. -/
inductive Event where
  | probe (db : String)
  | tableProbe (db tbl : String)
  | recordRead (db tbl : String)
  | recordWrite (db tbl : String)
deriving DecidableEq, Repr

/-- Whether an event touches record data (as opposed to the zero-impact
connectivity and table-existence probes). -/
def Event.isRecordAccess : Event → Bool
  | .probe _ => false
  | .tableProbe _ _ => false
  | .recordRead _ _ => true
  | .recordWrite _ _ => true

/-- The exception class of a raised error, as the HTTP layer sees it:
DRF `NotFound` renders as 404, DRF `ValidationError` as 400, and an
uncaught Django `ValidationError` as a 500 server error. -/
inductive ExcKind where
  | notFound
  | djangoValidation
  | drfValidation
deriving DecidableEq, Repr

/-- Which raise site produced the error (structured identity of the
Python exception, beyond its class and message). -/
inductive ErrTag where
  | dbNotConfigured
  | cannotConnect
  | modelNotFound
  | tableMissing
  | protectedEntity
  | missingParams
  | fkInvalid
  | genericNotFound
  | internalError
deriving DecidableEq, Repr

/-- A raised exception: class, raise-site tag, detail message, and
field-level detail (for validation errors keyed by field name). -/
structure Exc where
  kind : ExcKind
  tag : ErrTag
  msg : String
  fieldErrors : List (String × String)
deriving DecidableEq, Repr

/-- HTTP status the framework assigns to an exception class. -/
def statusOf (e : Exc) : Nat :=
  match e.kind with
  | .notFound => 404
  | .drfValidation => 400
  | .djangoValidation => 500

/-- ASCII lowercasing of one character (`str.lower()` on the ASCII
names this code compares). -/
def lowerChar (c : Char) : Char :=
  if 65 ≤ c.toNat ∧ c.toNat ≤ 90 then Char.ofNat (c.toNat + 32) else c

/-- ASCII lowercasing of a string, structurally on its characters. -/
def lowerStr (s : String) : String := ⟨s.data.map lowerChar⟩

/-- Case-insensitive name comparison
(`model._meta.model_name.lower() == model_name.lower()`). -/
def lowerEq (a b : String) : Bool := lowerStr a == lowerStr b

/-- Decidable equality on fallible results. -/
instance {ε α : Type} [DecidableEq ε] [DecidableEq α] :
    DecidableEq (Except ε α) := fun a b =>
  match a, b with
  | .ok x, .ok y =>
    if h : x = y then isTrue (by rw [h])
    else isFalse (fun hh => h (by injection hh))
  | .error x, .error y =>
    if h : x = y then isTrue (by rw [h])
    else isFalse (fun hh => h (by injection hh))
  | .ok _, .error _ => isFalse (fun hh => by injection hh)
  | .error _, .ok _ => isFalse (fun hh => by injection hh)

/-- `utils.get_model_from_path(database_name, model_name)`.
Order, exactly as in the source: membership of `database_name` in
`connections.databases`; connectivity probe; case-insensitive scan of
`apps.get_models()` taking the first name match; zero-impact table probe
in the requested database.  The trace records every cursor execution. -/
def get_model_from_path (env : Env) (database_name model_name : String) :
    List Event × Except Exc ModelMeta :=
  if database_name ∉ env.databases then
    ([], .error ⟨.notFound, .dbNotConfigured,
      "Database " ++ database_name ++ " is not configured. Available databases are: "
        ++ String.intercalate ", " env.databases, []⟩)
  else
    if database_name ∉ env.reachable then
      ([.probe database_name], .error ⟨.notFound, .cannotConnect,
        "Cannot connect to database " ++ database_name ++ ".", []⟩)
    else
      match env.all_models.find?
          (fun m => lowerEq m.model_name model_name) with
      | none =>
        ([.probe database_name], .error ⟨.notFound, .modelNotFound,
          "Model " ++ model_name ++ " not found", []⟩)
      | some m =>
        if (database_name, m.db_table) ∈ env.tables then
          ([.probe database_name, .tableProbe database_name m.db_table], .ok m)
        else
          ([.probe database_name, .tableProbe database_name m.db_table],
            .error ⟨.notFound, .tableMissing,
              "Table " ++ m.db_table ++ " does not exist in database "
                ++ database_name ++ ".", []⟩)

/-- The app labels treated as authentication-related by
`utils.get_database_for_model`. -/
def auth_apps : List String := ["auth", "admin", "sessions", "contenttypes"]

/-- `utils.get_database_for_model(model, database_name)`.
Order, exactly as in the source: membership check (Django
`ValidationError` on failure); protected-app pinning to `"default"`
(raising when a different database was requested, before any probe);
connectivity probe; return of the requested name. -/
def get_database_for_model (env : Env) (m : ModelMeta) (database_name : String) :
    List Event × Except Exc String :=
  if database_name ∉ env.databases then
    ([], .error ⟨.djangoValidation, .dbNotConfigured,
      "Database " ++ database_name ++ " is not configured. Available databases are: "
        ++ String.intercalate ", " env.databases, []⟩)
  else if m.app_label ∈ auth_apps then
    if database_name ≠ "default" then
      ([], .error ⟨.djangoValidation, .protectedEntity,
        "Model " ++ m.model_name ++ " from app " ++ m.app_label
          ++ " can only be accessed through the default database, not "
          ++ database_name ++ ".", []⟩)
    else
      ([], .ok "default")
  else
    if database_name ∉ env.reachable then
      ([.probe database_name], .error ⟨.djangoValidation, .cannotConnect,
        "Cannot connect to database " ++ database_name ++ ".", []⟩)
    else
      ([.probe database_name], .ok database_name)

/-- `True` when a required query parameter is absent or empty
(`not request.query_params.get(...)` in Python). -/
def missingParam : Option String → Bool
  | none => true
  | some s => s == ""

/-- `DynamicModelViewSet.initial`: collects one error per missing
required query parameter and raises a DRF `ValidationError` naming all
of them; runs before any resolution or storage access. -/
def viewset_initial (dbp tblp : Option String) : Except Exc Unit :=
  let errs :=
    (if missingParam dbp then [("db", "Database parameter is required")] else [])
      ++ (if missingParam tblp then [("table", "Table parameter is required")] else [])
  if errs.isEmpty then .ok ()
  else .error ⟨.drfValidation, .missingParams, "", errs⟩

/-- The `except` clauses of `DynamicModelViewSet.get_queryset`:
a DRF `NotFound` is logged and re-raised as a generic `NotFound`;
any other exception is logged with its traceback and re-raised as a
generic internal-error `NotFound`. -/
def handle_queryset_exc (e : Exc) : Exc :=
  if e.kind == ExcKind.notFound then
    ⟨.notFound, .genericNotFound, "The requested resource was not found.", []⟩
  else
    ⟨.notFound, .internalError,
      "An internal error occurred while accessing the requested data.", []⟩

/-- `DynamicModelViewSet.get_queryset` up to building the queryset:
resolve the model (`get_model_from_path`), authorize the database
(`get_database_for_model`), both inside the `try` block whose handlers
are `handle_queryset_exc`.  On success returns the database the queryset
will use together with the model. -/
def viewset_get_queryset (env : Env) (db tbl : String) :
    List Event × Except Exc (String × ModelMeta) :=
  match get_model_from_path env db tbl with
  | (ev, .error e) => (ev, .error (handle_queryset_exc e))
  | (ev, .ok m) =>
    match get_database_for_model env m db with
    | (ev2, .error e) => (ev ++ ev2, .error (handle_queryset_exc e))
    | (ev2, .ok useDb) => (ev ++ ev2, .ok (useDb, m))

/-- `order_by("id")`: ascending primary-key order. -/
def sortIds (l : List Nat) : List Nat := List.insertionSort (· ≤ ·) l

/-- The `list` action: parameter validation (`initial`), then
`get_queryset`, then evaluation of the ordered queryset (a record-level
read against the authorized database).  The result is the full ordered
list of stored record ids. -/
def viewset_list (env : Env) (dbp tblp : Option String) :
    List Event × Except Exc (List Nat) :=
  match viewset_initial dbp tblp with
  | .error e => ([], .error e)
  | .ok _ =>
    match viewset_get_queryset env (dbp.getD "") (tblp.getD "") with
    | (ev, .error e) => (ev, .error e)
    | (ev, .ok (useDb, m)) =>
      (ev ++ [.recordRead useDb m.db_table], .ok (sortIds (env.idsIn useDb m.db_table)))

/-- Modelled from the spec: the per-field resolution of
`PrimaryKeyRelatedField` is DRF framework code outside this repository
("foreign-key fields must reference an existing Record of the target
entity resolved in the same database context; a dangling reference is a
validation error").  The database context itself comes from the source:
`DynamicModelSerializer.__init__` re-binds every related field queryset
with `.using(self.database)`, so each referenced primary key is resolved
in the request database.  A lookup that finds no record is a field-level
DRF `ValidationError`; a wrong-typed value fails pk conversion before
touching storage. -/
def checkFks (env : Env) (db : String) (fields : List FieldM)
    (payload : List (String × Val)) : List Event × Except Exc Unit :=
  match fields with
  | [] => ([], .ok ())
  | f :: rest =>
    match f.fkTarget with
    | none => checkFks env db rest payload
    | some tgt =>
      match payload.lookup f.name with
      | none => checkFks env db rest payload
      | some (.id k) =>
        if k ∈ env.idsIn db tgt then
          let r := checkFks env db rest payload
          (Event.recordRead db tgt :: r.1, r.2)
        else
          ([Event.recordRead db tgt],
            .error ⟨.drfValidation, .fkInvalid,
              "Invalid pk - object does not exist.",
              [(f.name, "Invalid pk - object does not exist.")]⟩)
      | some _ =>
        ([], .error ⟨.drfValidation, .fkInvalid, "Incorrect type.",
          [(f.name, "Incorrect type.")]⟩)

/-- A stored record: the generated primary key plus the payload fields
(`id` has `default=uuid4, editable=False` in every model). -/
structure RecordV where
  id : Nat
  fields : List (String × Val)
deriving DecidableEq, Repr

/-- `serialize(record)` with `fields = "__all__"`: every field plus the
primary key, foreign keys rendered as their referenced identifier. -/
def serializeRec (r : RecordV) : List (String × Val) :=
  ("id", .id r.id) :: r.fields

/-- The `create` action: `initial`, then `get_serializer` — which calls
`get_model_from_path` with NO surrounding `try`/`except`, so its errors
propagate with their detailed messages — then serializer validation
(`checkFks` in the request database, since `__init__` received
`database=<db param>` and therefore never consults
`get_database_for_model`), then
`Meta.model.objects.using(self.database).create(**validated_data)` with
the generated primary key `gen`, then serialization of the result. -/
def viewset_create (env : Env) (dbp tblp : Option String)
    (payload : List (String × Val)) (gen : Nat) :
    List Event × Except Exc (List (String × Val)) :=
  match viewset_initial dbp tblp with
  | .error e => ([], .error e)
  | .ok _ =>
    match get_model_from_path env (dbp.getD "") (tblp.getD "") with
    | (ev, .error e) => (ev, .error e)
    | (ev, .ok m) =>
      match checkFks env (dbp.getD "") m.fieldsOf payload with
      | (ev2, .error e) => (ev ++ ev2, .error e)
      | (ev2, .ok _) =>
        (ev ++ ev2 ++ [.recordWrite (dbp.getD "") m.db_table],
          .ok (serializeRec ⟨gen, payload⟩))

/-- The detail string a client sees in the error response body
(`{"detail": <msg>}` for DRF exceptions). -/
def responseDetail (e : Exc) : String := e.msg

/-- Modelled from the spec: DRF page-number pagination (the paginator
class and its settings are framework/configuration code outside this
repository): split the ordered queryset into consecutive chunks of `P`
records. -/
def paginate (P : Nat) (l : List Nat) : List (List Nat) :=
  if _h : P = 0 then []
  else
    match l with
    | [] => []
    | x :: xs => (x :: xs).take P :: paginate P ((x :: xs).drop P)
termination_by l.length
decreasing_by simp only [List.length_drop, List.length_cons]; omega

/-- One page of the list response: the total `count` and this page's
`results`. -/
structure PageResp where
  count : Nat
  results : List Nat
deriving DecidableEq, Repr

/-- Modelled from the spec: all pages the paginated list endpoint
produces for a stored record set, in page order; every page response
carries the total count of the full queryset, as in the list response
schema declared in `views.py` (`count`, `results`). -/
def listPages (records : List Nat) (P : Nat) : List PageResp :=
  (paginate P records).map (fun pg => ⟨records.length, pg⟩)

/-! ### Concrete environment

The registered models of this repository (`apps/app2`, `apps/app3`,
`apps/auth`) and the documented database configuration
(`default`, `db1`, `db2`, `db3`; app2 tables migrated to db2, app3
tables to db3, auth tables to default, per `config/routers.py`). -/

/-- `apps.app2.models.Species`. -/
def speciesModel : ModelMeta :=
  ⟨"species", "app2", "app2_species",
    [⟨"name", none⟩, ⟨"description", none⟩]⟩

/-- `apps.app2.models.Breed` (`species` is a foreign key to Species). -/
def breedModel : ModelMeta :=
  ⟨"breed", "app2", "app2_breed",
    [⟨"name", none⟩, ⟨"species", some "app2_species"⟩, ⟨"description", none⟩]⟩

/-- `apps.app2.models.Animal` (`breed` is a foreign key to Breed). -/
def animalModel : ModelMeta :=
  ⟨"animal", "app2", "app2_animal",
    [⟨"name", none⟩, ⟨"age", none⟩, ⟨"breed", some "app2_breed"⟩,
      ⟨"description", none⟩]⟩

/-- `apps.app3.models.Genre`. -/
def genreModel : ModelMeta :=
  ⟨"genre", "app3", "app3_genre",
    [⟨"name", none⟩, ⟨"description", none⟩]⟩

/-- `apps.app3.models.Movie` (`genre` is a foreign key to Genre). -/
def movieModel : ModelMeta :=
  ⟨"movie", "app3", "app3_movie",
    [⟨"title", none⟩, ⟨"description", none⟩, ⟨"release_date", none⟩,
      ⟨"genre", some "app3_genre"⟩]⟩

/-- `apps.auth.models.User` (`db_table = "auth_user"`, app label `auth`,
hence in the protected group). -/
def userModel : ModelMeta :=
  ⟨"user", "auth", "auth_user", [⟨"username", none⟩, ⟨"email", none⟩]⟩

/-- The environment matching the repository configuration: all four
documented databases configured and reachable, each table present in the
database its app is routed to. -/
def env0 : Env :=
  { databases := ["default", "db1", "db2", "db3"]
    reachable := ["default", "db1", "db2", "db3"]
    tables := [("default", "auth_user"),
      ("db2", "app2_species"), ("db2", "app2_breed"), ("db2", "app2_animal"),
      ("db3", "app3_genre"), ("db3", "app3_movie")]
    all_models := [speciesModel, breedModel, animalModel, genreModel,
      movieModel, userModel]
    storage := [(("db2"), ("app2_species", [1, 2])),
      (("db2"), ("app2_breed", [5])),
      (("db2"), ("app2_animal", [7, 8, 9]))] }

/-- A drifted environment in which the `auth_user` table also exists in
`db2`, so that requests get past the table-existence probe and reach the
authorization step. -/
def env1 : Env :=
  { env0 with tables := ("db2", "auth_user") :: env0.tables }

/-- An environment in which the `app2_animal` table exists in both `db1`
and `db2`, so resolution of `animal` succeeds through either database. -/
def envW : Env :=
  { env0 with tables := ("db1", "app2_animal") :: env0.tables }

/-- HTTP status of a response: the exception status on failure, a
success code otherwise. -/
def respStatus {α : Type} : Except Exc α → Nat
  | .error e => statusOf e
  | .ok _ => 200

/-- The raise-site tag of a failed result. -/
def errTagOf {α : Type} : Except Exc α → Option ErrTag
  | .error e => some e.tag
  | .ok _ => none

/-- The detail message of a failed result. -/
def errMsgOf {α : Type} : Except Exc α → Option String
  | .error e => some e.msg
  | .ok _ => none

/-- The field-level error detail of a failed result. -/
def errFieldsOf {α : Type} : Except Exc α → Option (List (String × String))
  | .error e => some e.fieldErrors
  | .ok _ => none

/-- Whether `sub` occurs inside `s` (contiguous substring). -/
def containsSub (s sub : String) : Prop := sub.data <:+: s.data

instance (s sub : String) : Decidable (containsSub s sub) :=
  inferInstanceAs (Decidable (sub.data <:+: s.data))

/-- Whether an event is a record write. -/
def Event.isWrite : Event → Bool
  | .recordWrite _ _ => true
  | _ => false

/-- An event that is not a record access is in particular not a write. -/
theorem Event.not_record_not_write (ev : Event)
    (h : ev.isRecordAccess = false) : ev.isWrite = false := by
  cases ev <;> simp [Event.isRecordAccess, Event.isWrite] at h ⊢

/-! ### Helper lemmas -/

/-- Every storage access performed by `get_model_from_path` is a
connectivity probe or a zero-row table probe, never a record access. -/
theorem gmfp_events_not_record (env : Env) (db name : String) :
    ∀ ev ∈ (get_model_from_path env db name).1, ev.isRecordAccess = false := by
  unfold get_model_from_path
  split
  · intro ev h; simp at h
  · split
    · intro ev h; simp at h; subst h; rfl
    · split
      · intro ev h; simp at h; subst h; rfl
      · split
        · intro ev h
          simp at h
          rcases h with h | h <;> subst h <;> rfl
        · intro ev h
          simp at h
          rcases h with h | h <;> subst h <;> rfl

/-- Every storage access performed by `get_database_for_model` is a
connectivity probe. -/
theorem gdfm_events_not_record (env : Env) (m : ModelMeta) (db : String) :
    ∀ ev ∈ (get_database_for_model env m db).1, ev.isRecordAccess = false := by
  unfold get_database_for_model
  split
  · intro ev h; simp at h
  · split
    · split
      · intro ev h; simp at h
      · intro ev h; simp at h
    · split
      · intro ev h; simp at h; subst h; rfl
      · intro ev h; simp at h; subst h; rfl

/-- When `get_model_from_path` succeeds, the returned model is exactly
the first case-insensitive name match in the global model registry. -/
theorem gmfp_ok_find (env : Env) (db name : String) (m : ModelMeta)
    (h : (get_model_from_path env db name).2 = .ok m) :
    env.all_models.find?
      (fun mm => lowerEq mm.model_name name) = some m := by
  unfold get_model_from_path at h
  split at h
  · simp at h
  · split at h
    · simp at h
    · rename_i hfind
      split at h
      · simp at h
      · rename_i mm hmm
        split at h
        · simp at h; subst h; exact hmm
        · simp at h

/-- Every error raised during foreign-key validation is a field-level
DRF validation error (the invalid-reference error). -/
theorem checkFks_error_shape (env : Env) (db : String) :
    ∀ (fields : List FieldM) (payload : List (String × Val)) (e : Exc),
      (checkFks env db fields payload).2 = .error e →
      e.kind = .drfValidation ∧ e.tag = .fkInvalid ∧ e.fieldErrors ≠ [] := by
  intro fields
  induction fields with
  | nil => intro payload e h; simp [checkFks] at h
  | cons f rest ih =>
    intro payload e h
    unfold checkFks at h
    split at h
    · exact ih payload e h
    · split at h
      · exact ih payload e h
      · split at h
        · apply ih payload e
          simpa using h
        · simp at h; subst h; exact ⟨rfl, rfl, by simp⟩
      · simp at h; subst h; exact ⟨rfl, rfl, by simp⟩

/-- Every storage access performed during foreign-key validation is a
record read against the serializer's database. -/
theorem checkFks_events_read (env : Env) (db : String) :
    ∀ (fields : List FieldM) (payload : List (String × Val)),
      ∀ ev ∈ (checkFks env db fields payload).1,
        ∃ t, ev = Event.recordRead db t := by
  intro fields
  induction fields with
  | nil => intro payload ev h; simp [checkFks] at h
  | cons f rest ih =>
    intro payload ev h
    unfold checkFks at h
    split at h
    · exact ih payload ev h
    · split at h
      · exact ih payload ev h
      · split at h
        · simp only [List.mem_cons] at h
          rcases h with h | h
          · exact ⟨_, h⟩
          · exact ih payload ev h
        · simp at h; subst h; exact ⟨_, rfl⟩
      · simp at h

/-- The trace of `viewset_get_queryset` holds only connectivity and
table probes, never record-level accesses. -/
theorem vgq_events_not_record (env : Env) (db tbl : String) :
    ∀ ev ∈ (viewset_get_queryset env db tbl).1, ev.isRecordAccess = false := by
  intro ev h
  unfold viewset_get_queryset at h
  split at h
  · rename_i evs e heq
    exact gmfp_events_not_record env db tbl ev (by rw [heq]; simpa using h)
  · rename_i evs m heq
    split at h
    · rename_i evs2 e2 heq2
      rcases List.mem_append.mp (by simpa using h) with hh | hh
      · exact gmfp_events_not_record env db tbl ev (by rw [heq]; exact hh)
      · exact gdfm_events_not_record env m db ev (by rw [heq2]; exact hh)
    · rename_i evs2 useDb heq2
      rcases List.mem_append.mp (by simpa using h) with hh | hh
      · exact gmfp_events_not_record env db tbl ev (by rw [heq]; exact hh)
      · exact gdfm_events_not_record env m db ev (by rw [heq2]; exact hh)

/-- Paginating the empty queryset yields no pages. -/
theorem paginate_nil (P : Nat) : paginate P [] = [] := by
  unfold paginate
  split <;> rfl

/-- Unfolding equation of `paginate` on a non-empty queryset. -/
theorem paginate_cons (P : Nat) (hP : P ≠ 0) (x : Nat) (xs : List Nat) :
    paginate P (x :: xs) =
      (x :: xs).take P :: paginate P ((x :: xs).drop P) := by
  conv_lhs => unfold paginate
  simp [hP]

/-- Concatenating all pages in page order reproduces the queryset. -/
theorem paginate_join (P : Nat) (hP : P ≠ 0) (l : List Nat) :
    (paginate P l).flatten = l := by
  have aux : ∀ (n : Nat) (l : List Nat), l.length ≤ n →
      (paginate P l).flatten = l := by
    intro n
    induction n with
    | zero =>
      intro l h
      have hnil : l = [] := List.eq_nil_of_length_eq_zero (Nat.le_zero.mp h)
      subst hnil
      simp [paginate_nil]
    | succ n ih =>
      intro l h
      cases l with
      | nil => simp [paginate_nil]
      | cons x xs =>
        rw [paginate_cons P hP, List.flatten_cons, ih ((x :: xs).drop P) ?_,
          List.take_append_drop]
        have hP1 : 1 ≤ P := Nat.one_le_iff_ne_zero.mpr hP
        simp only [List.length_drop, List.length_cons]
        simp only [List.length_cons] at h
        omega
  exact aux l.length l (Nat.le_refl _)

/-- The number of pages is the ceiling of the record count divided by
the page size. -/
theorem paginate_length (P : Nat) (hP : P ≠ 0) (l : List Nat) :
    (paginate P l).length = (l.length + P - 1) / P := by
  have hP' : 0 < P := Nat.pos_of_ne_zero hP
  have key : ∀ a : Nat, 1 ≤ a → (a + P - 1) / P = (a - 1) / P + 1 := by
    intro a ha
    have hrw : a + P - 1 = (a - 1) + P := by omega
    rw [hrw, Nat.add_div_right _ hP']
  have aux : ∀ (n : Nat) (l : List Nat), l.length ≤ n →
      (paginate P l).length = (l.length + P - 1) / P := by
    intro n
    induction n with
    | zero =>
      intro l h
      have hnil : l = [] := List.eq_nil_of_length_eq_zero (Nat.le_zero.mp h)
      subst hnil
      simp [paginate_nil, Nat.div_eq_of_lt (by omega : P - 1 < P)]
    | succ n ih =>
      intro l h
      cases l with
      | nil => simp [paginate_nil, Nat.div_eq_of_lt (by omega : P - 1 < P)]
      | cons x xs =>
        rw [paginate_cons P hP]
        simp only [List.length_cons]
        rw [ih ((x :: xs).drop P) ?_]
        · rw [key (xs.length + 1) (by omega)]
          simp only [List.length_drop, List.length_cons]
          rcases le_or_lt P (xs.length + 1) with hle | hlt
          · have hrw : xs.length + 1 - P + P - 1 = xs.length + 1 - 1 := by omega
            rw [hrw]
          · have h0 : xs.length + 1 - P = 0 := by omega
            rw [h0]
            rw [Nat.div_eq_of_lt (by omega : 0 + P - 1 < P),
              Nat.div_eq_of_lt (by omega : xs.length + 1 - 1 < P)]
        · simp only [List.length_drop, List.length_cons]
          simp only [List.length_cons] at h
          omega
  exact aux l.length l (Nat.le_refl _)

/-- Whatever exception enters the `get_queryset` handlers leaves as a
DRF `NotFound` carrying one of the two generic messages (404). -/
theorem handle_exc_generic (e : Exc) :
    ((handle_queryset_exc e).msg = "The requested resource was not found."
      ∨ (handle_queryset_exc e).msg =
          "An internal error occurred while accessing the requested data.")
    ∧ statusOf (handle_queryset_exc e) = 404
    ∧ (handle_queryset_exc e).kind = .notFound := by
  unfold handle_queryset_exc
  split
  · exact ⟨Or.inl rfl, rfl, rfl⟩
  · exact ⟨Or.inr rfl, rfl, rfl⟩

/-- A successful `list` returns the stored ids of the authorized
database and table, in ascending primary-key order. -/
theorem viewset_list_ok_eq (env : Env) (dbp tblp : Option String)
    (l : List Nat) (h : (viewset_list env dbp tblp).2 = .ok l) :
    ∃ db tbl, l = sortIds (env.idsIn db tbl) := by
  unfold viewset_list at h
  split at h
  · simp at h
  · split at h
    · simp at h
    · rename_i pr useDb m hpr
      simp only at h
      injection h with h
      exact ⟨useDb, m.db_table, h.symm⟩

/-! ### Claims -/

/-- C10: whenever `get_model_from_path` succeeds for the same entity
name through two databases, it returns the same model: the lookup scans
all registered models globally and returns the first case-insensitive
name match, so the requested database has no influence on resolution. -/
theorem resolution_database_independent (env : Env) (d1 d2 name : String)
    (m1 m2 : ModelMeta)
    (h1 : (get_model_from_path env d1 name).2 = .ok m1)
    (h2 : (get_model_from_path env d2 name).2 = .ok m2) :
    m1 = m2 := by
  have e1 := gmfp_ok_find env d1 name m1 h1
  have e2 := gmfp_ok_find env d2 name m2 h2
  rw [e1] at e2
  injection e2

/-- Witness for C10: `animal` resolves to the same model through `db1`
and `db2` in an environment where its table exists in both. -/
theorem resolution_database_independent_witness : animalModel = animalModel :=
  resolution_database_independent envW "db1" "db2" "animal"
    animalModel animalModel (by rfl) (by rfl)

/-- C4: a database name outside the configured set is rejected with the
not-configured error before any connectivity probe, on every path
(`get_model_from_path`, `get_database_for_model`, and the list
operation, which surfaces it as a 404 with an empty storage trace). -/
theorem unknown_database_no_probe (env : Env) (db name : String) (m : ModelMeta)
    (h : db ∉ env.databases) :
    (get_model_from_path env db name).1 = []
    ∧ errTagOf (get_model_from_path env db name).2 = some .dbNotConfigured
    ∧ respStatus (get_model_from_path env db name).2 = 404
    ∧ (get_database_for_model env m db).1 = []
    ∧ errTagOf (get_database_for_model env m db).2 = some .dbNotConfigured
    ∧ (db ≠ "" → name ≠ "" →
        (viewset_list env (some db) (some name)).1 = []
          ∧ respStatus (viewset_list env (some db) (some name)).2 = 404) := by
  have hg : get_model_from_path env db name =
      ([], .error ⟨.notFound, .dbNotConfigured,
        "Database " ++ db ++ " is not configured. Available databases are: "
          ++ String.intercalate ", " env.databases, []⟩) := by
    unfold get_model_from_path
    simp [h]
  have hd : get_database_for_model env m db =
      ([], .error ⟨.djangoValidation, .dbNotConfigured,
        "Database " ++ db ++ " is not configured. Available databases are: "
          ++ String.intercalate ", " env.databases, []⟩) := by
    unfold get_database_for_model
    simp [h]
  refine ⟨by rw [hg], by rw [hg]; rfl, by rw [hg]; rfl,
    by rw [hd], by rw [hd]; rfl, ?_⟩
  intro hdb hname
  have hmdb : missingParam (some db) = false := by
    simp [missingParam]; exact hdb
  have hmname : missingParam (some name) = false := by
    simp [missingParam]; exact hname
  have hinit : viewset_initial (some db) (some name) = .ok () := by
    unfold viewset_initial
    rw [hmdb, hmname]
    rfl
  constructor
  · unfold viewset_list
    rw [hinit]
    unfold viewset_get_queryset
    simp only [Option.getD_some]
    rw [hg]
  · unfold viewset_list
    rw [hinit]
    unfold viewset_get_queryset
    simp only [Option.getD_some]
    rw [hg]
    rfl

/-- Witness for C4: the unconfigured database name `nadb` produces no
probe event through `get_model_from_path`. -/
theorem unknown_database_no_probe_witness :
    (get_model_from_path env0 "nadb" "animal").1 = [] :=
  (unknown_database_no_probe env0 "nadb" "animal" animalModel (by decide)).1

/-- C9: a request with the `db` parameter, the `table` parameter, or
both absent or empty fails with a 400 validation error naming every
missing parameter, before entity resolution, authorization, or any
storage access (the storage trace is empty), for both the list and the
create operations. -/
theorem missing_params_validation (env : Env) (dbp tblp : Option String)
    (payload : List (String × Val)) (gen : Nat)
    (h : missingParam dbp = true ∨ missingParam tblp = true) :
    (viewset_list env dbp tblp).1 = []
    ∧ (viewset_create env dbp tblp payload gen).1 = []
    ∧ respStatus (viewset_list env dbp tblp).2 = 400
    ∧ respStatus (viewset_create env dbp tblp payload gen).2 = 400
    ∧ errFieldsOf (viewset_list env dbp tblp).2 = some
        ((if missingParam dbp then [("db", "Database parameter is required")] else [])
          ++ (if missingParam tblp then [("table", "Table parameter is required")]
              else []))
    ∧ errFieldsOf (viewset_create env dbp tblp payload gen).2 =
        errFieldsOf (viewset_list env dbp tblp).2 := by
  cases hdb : missingParam dbp <;> cases htb : missingParam tblp
  · rw [hdb, htb] at h
    simp at h
  all_goals
    simp [viewset_list, viewset_create, viewset_initial, hdb, htb,
      respStatus, statusOf, errFieldsOf]

/-- Witness for C9: with `db` absent and `table` empty, both parameters
are named in the field-level error body. -/
theorem missing_params_validation_witness :
    errFieldsOf (viewset_list env0 none (some "")).2 = some
      ((if missingParam (none : Option String)
          then [("db", "Database parameter is required")] else [])
        ++ (if missingParam (some "")
            then [("table", "Table parameter is required")] else [])) :=
  (missing_params_validation env0 none (some "") [] 0 (Or.inl rfl)).2.2.2.2.1

/-- C2 counterexample: in an environment where the protected `user`
entity passes the table probe on `db2`, `get_database_for_model` does
raise the protected-entity error (no silent override), but the viewset
surfaces the request as a generic 404 internal-error response — not as
a 403. -/
theorem protected_entity_status_counterexample :
    errTagOf (get_database_for_model env1 userModel "db2").2 =
      some .protectedEntity
    ∧ userModel.app_label ∈ auth_apps
    ∧ errTagOf (viewset_list env1 (some "db2") (some "user")).2 =
        some .internalError
    ∧ respStatus (viewset_list env1 (some "db2") (some "user")).2 = 404
    ∧ respStatus (viewset_list env1 (some "db2") (some "user")).2 ≠ 403 := by
  decide

/-- C2 (amended): for a protected entity, authorizing the default
database succeeds and returns `"default"`; authorizing any other
configured database raises the protected-entity Django
`ValidationError` — never a silent override — and the `get_queryset`
handlers surface every such failure as a 404 response. -/
theorem protected_entity_authorization (env : Env) (m : ModelMeta)
    (hm : m.app_label ∈ auth_apps) (hdef : "default" ∈ env.databases) :
    get_database_for_model env m "default" = ([], .ok "default")
    ∧ (∀ db, db ∈ env.databases → db ≠ "default" →
        get_database_for_model env m db =
          ([], .error ⟨.djangoValidation, .protectedEntity,
            "Model " ++ m.model_name ++ " from app " ++ m.app_label
              ++ " can only be accessed through the default database, not "
              ++ db ++ ".", []⟩))
    ∧ (∀ e : Exc, statusOf (handle_queryset_exc e) = 404) := by
  refine ⟨?_, ?_, ?_⟩
  · unfold get_database_for_model
    simp [hdef, hm]
  · intro db hdb hne
    unfold get_database_for_model
    simp [hdb, hm, hne]
  · intro e
    exact (handle_exc_generic e).2.1

/-- Witness for the amended C2: authorizing the default database for
the protected `user` model succeeds. -/
theorem protected_entity_authorization_witness :
    get_database_for_model env0 userModel "default" = ([], .ok "default") :=
  (protected_entity_authorization env0 userModel (by decide) (by decide)).1

/-- C3 counterexample: resolving the unregistered entity name
`nosuchmodel` through the configured, reachable database `db1` does
fail with the model-not-found domain error, but only after a
connectivity probe — a database connection is acquired during the
failed resolution. -/
theorem entity_not_found_probe_counterexample :
    (get_model_from_path env0 "db1" "nosuchmodel").2 =
      .error ⟨.notFound, .modelNotFound, "Model nosuchmodel not found", []⟩
    ∧ (get_model_from_path env0 "db1" "nosuchmodel").1 = [.probe "db1"]
    ∧ (get_model_from_path env0 "db1" "nosuchmodel").1 ≠ [] := by
  decide

/-- C3 (amended): an entity name matching no registered model fails
with the domain not-found error (a 404, never a raw exception), and no
table access or record access occurs during the failed resolution; but
when the requested database is configured and reachable, a connectivity
probe of it is performed before the name lookup. -/
theorem entity_not_found_domain_error (env : Env) (db name : String)
    (hdb : db ∈ env.databases) (hr : db ∈ env.reachable)
    (hnone : env.all_models.find? (fun mm => lowerEq mm.model_name name) = none) :
    get_model_from_path env db name =
      ([.probe db], .error ⟨.notFound, .modelNotFound,
        "Model " ++ name ++ " not found", []⟩)
    ∧ (∀ ev ∈ (get_model_from_path env db name).1, ev.isRecordAccess = false)
    ∧ respStatus (get_model_from_path env db name).2 = 404 := by
  have h1 : get_model_from_path env db name =
      ([.probe db], .error ⟨.notFound, .modelNotFound,
        "Model " ++ name ++ " not found", []⟩) := by
    unfold get_model_from_path
    simp [hdb, hr, hnone]
  refine ⟨h1, ?_, ?_⟩
  · rw [h1]
    intro ev hev
    simp at hev
    subst hev
    rfl
  · rw [h1]
    rfl

/-- Witness for the amended C3: the unregistered name `nosuchmodel`
through `db1` in the repository configuration. -/
theorem entity_not_found_domain_error_witness :
    respStatus (get_model_from_path env0 "db1" "nosuchmodel").2 = 404 :=
  (entity_not_found_domain_error env0 "db1" "nosuchmodel"
    (by decide) (by decide) (by decide)).2.2

/-- C6 counterexample: a create request for the protected `user` entity
through `db1` fails inside `get_serializer`, which has no sanitizing
handler, so the detailed resolution message — naming the backing table
`auth_user` — reaches the response body. -/
theorem error_body_leak_counterexample :
    errMsgOf (viewset_create env0 (some "db1") (some "user") [] 0).2 =
      some "Table auth_user does not exist in database db1."
    ∧ userModel.db_table = "auth_user"
    ∧ containsSub "Table auth_user does not exist in database db1."
        userModel.db_table := by
  refine ⟨by decide, rfl, ?_⟩
  decide

/-- A parameter-validation failure of `initial` has an empty detail
message (its content is the field-level list of parameter names). -/
theorem viewset_initial_error_msg (dbp tblp : Option String) (e : Exc)
    (h : viewset_initial dbp tblp = .error e) : e.msg = "" := by
  unfold viewset_initial at h
  cases hdb : missingParam dbp <;> cases htb : missingParam tblp <;>
    rw [hdb, htb] at h <;> simp at h
  · rw [← h]
  · rw [← h]
  · rw [← h]

/-- Every error escaping `viewset_get_queryset` carries one of the two
generic handler messages and renders as a 404. -/
theorem vgq_error_msg (env : Env) (db tbl : String) (e : Exc)
    (he : (viewset_get_queryset env db tbl).2 = .error e) :
    (e.msg = "The requested resource was not found."
      ∨ e.msg = "An internal error occurred while accessing the requested data.")
    ∧ statusOf e = 404 := by
  unfold viewset_get_queryset at he
  split at he
  · simp only at he
    injection he with he
    subst he
    exact ⟨(handle_exc_generic _).1, (handle_exc_generic _).2.1⟩
  · split at he
    · simp only at he
      injection he with he
      subst he
      exact ⟨(handle_exc_generic _).1, (handle_exc_generic _).2.1⟩
    · simp at he

/-- C6 (amended): every error escaping `get_queryset` (and hence the
list pipeline) carries one of the two generic messages — the detailed
internal messages are confined to the log — and is a 404; parameter
validation errors carry only the parameter names.  The create path,
which resolves the model without a sanitizing handler, is exempt from
this guarantee (see the counterexample). -/
theorem queryset_errors_generic (env : Env) (db tbl : String)
    (dbp tblp : Option String) :
    (∀ e : Exc, (viewset_get_queryset env db tbl).2 = .error e →
      (e.msg = "The requested resource was not found."
        ∨ e.msg = "An internal error occurred while accessing the requested data.")
      ∧ statusOf e = 404)
    ∧ (∀ e : Exc, (viewset_list env dbp tblp).2 = .error e →
        e.msg = ""
          ∨ e.msg = "The requested resource was not found."
          ∨ e.msg = "An internal error occurred while accessing the requested data.") := by
  constructor
  · intro e he
    exact vgq_error_msg env db tbl e he
  · intro e he
    unfold viewset_list at he
    split at he
    · rename_i e2 heq
      simp only at he
      injection he with he
      subst he
      exact Or.inl (viewset_initial_error_msg dbp tblp e2 heq)
    · split at he
      · rename_i evs e2 heq
        simp only at he
        injection he with he
        subst he
        have hv : (viewset_get_queryset env (dbp.getD "") (tblp.getD "")).2 =
            .error e2 := by rw [heq]
        exact Or.inr (vgq_error_msg _ _ _ e2 hv).1
      · simp at he

/-- Witness for the amended C6: the sanitized error surfaced for the
rejected `db2`/`user` list request renders as a 404. -/
theorem queryset_errors_generic_witness :
    statusOf ⟨.notFound, .genericNotFound,
      "The requested resource was not found.", []⟩ = 404 :=
  ((queryset_errors_generic env0 "db2" "user" (some "db2") (some "user")).1
    ⟨.notFound, .genericNotFound, "The requested resource was not found.", []⟩
    (by decide)).2

/-- Foreign-key validation fails whenever some foreign-key field of the
payload references a primary key absent from the target table in the
serializer's database. -/
theorem checkFks_dangling_fails (env : Env) (db : String) :
    ∀ (fields : List FieldM) (payload : List (String × Val)) (f : FieldM)
      (tgt : String) (k : Nat), f ∈ fields → f.fkTarget = some tgt →
      payload.lookup f.name = some (.id k) → k ∉ env.idsIn db tgt →
      (checkFks env db fields payload).2.isOk = false := by
  intro fields
  induction fields with
  | nil =>
    intro payload f tgt k hf
    simp at hf
  | cons hd rest ih =>
    intro payload f tgt k hf hfk hlk hnot
    rcases List.mem_cons.mp hf with heq | hmem
    · subst heq
      unfold checkFks
      simp only [hfk, hlk]
      simp [hnot, Except.isOk, Except.toBool]
    · have hrest := ih payload f tgt k hmem hfk hlk hnot
      unfold checkFks
      cases hfk2 : hd.fkTarget with
      | none => simpa [hfk2] using hrest
      | some tgt2 =>
        cases hlk2 : payload.lookup hd.name with
        | none => simpa [hfk2, hlk2] using hrest
        | some v =>
          cases v with
          | id k2 =>
            by_cases hmem2 : k2 ∈ env.idsIn db tgt2
            · simp only [hfk2, hlk2, hmem2]
              simpa using hrest
            · simp [hmem2, Except.isOk, Except.toBool]
          | s x => simp [hfk2, hlk2, Except.isOk, Except.toBool]
          | i x => simp [hfk2, hlk2, Except.isOk, Except.toBool]
          | null => simp [hfk2, hlk2, Except.isOk, Except.toBool]

/-- C1 counterexample: listing the protected entity `user` through
database `db2` in the repository configuration is rejected, but only
after a connectivity probe and a table-existence probe have executed
against `db2` — storage reads happen before the rejection. -/
theorem reject_before_storage_counterexample :
    (viewset_list env0 (some "db2") (some "user")).2.isOk = false
    ∧ (viewset_list env0 (some "db2") (some "user")).1 =
        [.probe "db2", .tableProbe "db2" "auth_user"]
    ∧ (viewset_list env0 (some "db2") (some "user")).1 ≠ [] := by
  decide

/-- C1 (amended): whenever a request fails entity resolution or
database authorization (every failure of the list pipeline, and every
create failure other than a field-validation error), no record-level
read or write has occurred against any database — only connectivity and
table-existence probes precede the rejection. -/
theorem rejection_precedes_record_access (env : Env) (dbp tblp : Option String)
    (payload : List (String × Val)) (gen : Nat) :
    ((viewset_list env dbp tblp).2.isOk = false →
      ∀ ev ∈ (viewset_list env dbp tblp).1, ev.isRecordAccess = false)
    ∧ (∀ e : Exc, (viewset_create env dbp tblp payload gen).2 = .error e →
        e.tag ≠ .fkInvalid →
        ∀ ev ∈ (viewset_create env dbp tblp payload gen).1,
          ev.isRecordAccess = false) := by
  constructor
  · intro hfail ev hev
    unfold viewset_list at hfail hev
    cases hi : viewset_initial dbp tblp with
    | error e =>
      rw [hi] at hev
      simp at hev
    | ok u =>
      rw [hi] at hfail hev
      cases hq : viewset_get_queryset env (dbp.getD "") (tblp.getD "") with
      | mk evs r =>
        rw [hq] at hfail hev
        cases r with
        | error e =>
          exact vgq_events_not_record env _ _ ev (by rw [hq]; simpa using hev)
        | ok pr =>
          obtain ⟨useDb, m⟩ := pr
          simp [Except.isOk, Except.toBool] at hfail
  · intro e he hne ev hev
    unfold viewset_create at he hev
    cases hi : viewset_initial dbp tblp with
    | error e2 =>
      rw [hi] at hev
      simp at hev
    | ok u =>
      rw [hi] at he hev
      cases hg : get_model_from_path env (dbp.getD "") (tblp.getD "") with
      | mk evs r =>
        rw [hg] at he hev
        cases r with
        | error e2 =>
          exact gmfp_events_not_record env _ _ ev (by rw [hg]; simpa using hev)
        | ok m =>
          dsimp only at he hev
          cases hc : checkFks env (dbp.getD "") m.fieldsOf payload with
          | mk evs2 r2 =>
            rw [hc] at he hev
            cases r2 with
            | error e2 =>
              have he2 : e2 = e := by simpa using he
              have htag := (checkFks_error_shape env (dbp.getD "")
                m.fieldsOf payload e2 (by rw [hc])).2.1
              rw [he2] at htag
              exact absurd htag hne
            | ok u2 =>
              simp at he

/-- Witness for the amended C1: the probe preceding the rejected
`db2`/`user` list request is not a record access. -/
theorem rejection_precedes_record_access_witness :
    (Event.probe "db2").isRecordAccess = false :=
  (rejection_precedes_record_access env0 (some "db2") (some "user") [] 0).1
    (by decide) (Event.probe "db2") (by decide)

/-- C7: foreign-key validation resolves every referenced primary key in
the request's database context; its storage accesses are reads against
that database only; every validation failure is a field-level 400 DRF
validation error; a dangling reference makes validation fail; and a
failed create performs no record write (the error never surfaces as a
downstream storage fault). -/
theorem fk_validation_same_database (env : Env) (db : String)
    (fields : List FieldM) (payload : List (String × Val)) :
    (∀ ev ∈ (checkFks env db fields payload).1, ∃ t, ev = Event.recordRead db t)
    ∧ (∀ e : Exc, (checkFks env db fields payload).2 = .error e →
        e.kind = .drfValidation ∧ statusOf e = 400 ∧ e.fieldErrors ≠ [])
    ∧ (∀ f tgt k, f ∈ fields → f.fkTarget = some tgt →
        payload.lookup f.name = some (.id k) → k ∉ env.idsIn db tgt →
        (checkFks env db fields payload).2.isOk = false)
    ∧ (∀ dbp tblp gen, (viewset_create env dbp tblp payload gen).2.isOk = false →
        ∀ ev ∈ (viewset_create env dbp tblp payload gen).1, ev.isWrite = false) := by
  refine ⟨checkFks_events_read env db fields payload, ?_, ?_, ?_⟩
  · intro e he
    have hs := checkFks_error_shape env db fields payload e he
    refine ⟨hs.1, ?_, hs.2.2⟩
    unfold statusOf
    rw [hs.1]
  · intro f tgt k hf hfk hlk hnot
    exact checkFks_dangling_fails env db fields payload f tgt k hf hfk hlk hnot
  · intro dbp tblp gen hfail ev hev
    unfold viewset_create at hfail hev
    cases hi : viewset_initial dbp tblp with
    | error e2 =>
      rw [hi] at hev
      simp at hev
    | ok u =>
      rw [hi] at hfail hev
      cases hg : get_model_from_path env (dbp.getD "") (tblp.getD "") with
      | mk evs r =>
        rw [hg] at hfail hev
        cases r with
        | error e2 =>
          apply Event.not_record_not_write
          exact gmfp_events_not_record env _ _ ev (by rw [hg]; simpa using hev)
        | ok m =>
          dsimp only at hfail hev
          cases hc : checkFks env (dbp.getD "") m.fieldsOf payload with
          | mk evs2 r2 =>
            rw [hc] at hfail hev
            cases r2 with
            | error e2 =>
              rcases List.mem_append.mp (by simpa using hev) with hh | hh
              · apply Event.not_record_not_write
                exact gmfp_events_not_record env _ _ ev (by rw [hg]; exact hh)
              · obtain ⟨t, rfl⟩ := checkFks_events_read env (dbp.getD "")
                  m.fieldsOf payload ev (by rw [hc]; exact hh)
                rfl
            | ok u2 =>
              simp [Except.isOk, Except.toBool] at hfail

/-- Witness for C7: a create payload whose `breed` reference does not
exist in `db2` fails foreign-key validation. -/
theorem fk_validation_same_database_witness :
    (checkFks env0 "db2" animalModel.fieldsOf
      [("breed", Val.id 6)]).2.isOk = false :=
  (fk_validation_same_database env0 "db2" animalModel.fieldsOf
      [("breed", Val.id 6)]).2.2.1
    ⟨"breed", some "app2_breed"⟩ "app2_breed" 6
    (by decide) rfl (by decide) (by decide)

/-- C8: a successful create returns the serialization of the created
record: the generated primary key under `id`, plus every payload field
unchanged. -/
theorem create_serialize_round_trip (env : Env) (dbp tblp : Option String)
    (payload : List (String × Val)) (gen : Nat) (body : List (String × Val))
    (hok : (viewset_create env dbp tblp payload gen).2 = .ok body) :
    body = ("id", Val.id gen) :: payload
    ∧ body.lookup "id" = some (Val.id gen)
    ∧ (∀ fname : String, fname ≠ "id" →
        body.lookup fname = payload.lookup fname) := by
  have hb : body = ("id", Val.id gen) :: payload := by
    unfold viewset_create at hok
    cases hi : viewset_initial dbp tblp with
    | error e =>
      rw [hi] at hok
      simp at hok
    | ok u =>
      rw [hi] at hok
      cases hg : get_model_from_path env (dbp.getD "") (tblp.getD "") with
      | mk evs r =>
        rw [hg] at hok
        cases r with
        | error e => simp at hok
        | ok m =>
          dsimp only at hok
          cases hc : checkFks env (dbp.getD "") m.fieldsOf payload with
          | mk evs2 r2 =>
            rw [hc] at hok
            cases r2 with
            | error e => simp at hok
            | ok u2 =>
              have hs : serializeRec ⟨gen, payload⟩ = body := by simpa using hok
              rw [← hs]
              rfl
  subst hb
  refine ⟨rfl, ?_, ?_⟩
  · simp [List.lookup]
  · intro fname hf
    have hbe : (fname == "id") = false := beq_eq_false_iff_ne.mpr hf
    simp [List.lookup, hbe]

/-- Witness for C8: creating an animal in `db2` echoes the payload plus
the generated id. -/
theorem create_serialize_round_trip_witness :
    ([("id", Val.id 42), ("name", Val.s "Rex"), ("breed", Val.id 5)]
        : List (String × Val)).lookup "id" = some (Val.id 42) :=
  (create_serialize_round_trip env0 (some "db2") (some "animal")
    [("name", Val.s "Rex"), ("breed", Val.id 5)] 42
    [("id", Val.id 42), ("name", Val.s "Rex"), ("breed", Val.id 5)]
    (by decide)).2.1

/-- C5: for a successful list of N stored records and any positive page
size P, pagination produces ceil(N/P) pages, every page response's
`count` equals N, concatenating all pages in page order reproduces the
full record set exactly (each record exactly once, in order), and the
record set itself is deterministically ordered by primary key. -/
theorem list_pagination_correct (env : Env) (dbp tblp : Option String)
    (l : List Nat) (P : Nat) (hP : 0 < P)
    (hok : (viewset_list env dbp tblp).2 = .ok l) :
    (listPages l P).length = (l.length + P - 1) / P
    ∧ (∀ pr ∈ listPages l P, pr.count = l.length)
    ∧ ((listPages l P).map PageResp.results).flatten = l
    ∧ List.Sorted (· ≤ ·) l := by
  obtain ⟨db, tbl, hl⟩ := viewset_list_ok_eq env dbp tblp l hok
  refine ⟨?_, ?_, ?_, ?_⟩
  · unfold listPages
    rw [List.length_map]
    exact paginate_length P (Nat.pos_iff_ne_zero.mp hP) l
  · intro pr hpr
    unfold listPages at hpr
    rcases List.mem_map.mp hpr with ⟨pg, hpg, rfl⟩
    rfl
  · unfold listPages
    rw [List.map_map]
    have hcomp : (PageResp.results ∘ fun pg => PageResp.mk l.length pg) = id := rfl
    rw [hcomp, List.map_id]
    exact paginate_join P (Nat.pos_iff_ne_zero.mp hP) l
  · rw [hl]
    exact List.sorted_insertionSort _ _

/-- Witness for C5: the three stored animals of `db2` paginate into
ceil(3/2) = 2 pages. -/
theorem list_pagination_correct_witness :
    (listPages [7, 8, 9] 2).length = (([7, 8, 9] : List Nat).length + 2 - 1) / 2 :=
  (list_pagination_correct env0 (some "db2") (some "animal") [7, 8, 9] 2
    (by decide) (by decide)).1

end DynamicApi
